import Mathlib

/-!
Verification of the environment/parameter subsystem of a Rust wrapper
around the Gurobi C API (files `src/env.rs` and `src/env/mod.rs`).

The native library is modelled as an oracle: every native entry point is a
constructor of `NativeCall`; an `Oracle` assigns each call its integer
status, the handle it stages through an out-pointer, the per-handle
diagnostic message, and the values written by the parameter getters.
Each Rust function is embedded as a Lean function that returns its result
together with the list of native calls it performed, in order.

Reference counting (`Rc<EnvRep>`) is embedded as an owner record
(`EnvRep`) paired with a strong count; `Env.clone` and `rcDrop` mirror
`Clone` and `Drop`.
-/

namespace Gurobi

/-- Host and native byte strings (`&str` / C buffers) as byte lists. -/
abbrev Bytes := List Nat

/-- `f64` values carried opaquely by their 64-bit pattern; the wrapper
performs no arithmetic on them, only pass-through. -/
structure F64 where
  bits : Nat
  deriving DecidableEq, Repr

/-- `CString::new`: fails exactly when the string holds an embedded NUL
byte; otherwise the bytes pass through unchanged. -/
def cstringNew (s : Bytes) : Option Bytes :=
  if 0 ∈ s then none else some s

/-- The native entry points consumed by the subsystem (`ffi::GRB*`),
one constructor per C function, carrying the arguments the wrapper
passes. -/
inductive NativeCall
  | loadenv (logfilename : Bytes)
  | loadclientenv (logfilename : Bytes) (computeserver : Bytes) (port : Int)
      (password : Bytes) (priority : Int) (timeout : F64)
  | freeenv (handle : Nat)
  | newmodel (handle : Nat) (modelname : Bytes)
  | readmodel (handle : Nat) (filename : Bytes)
  | geterrormsg (handle : Nat)
  | getintparam (handle : Nat) (name : Bytes)
  | setintparam (handle : Nat) (name : Bytes) (value : Int)
  | getdblparam (handle : Nat) (name : Bytes)
  | setdblparam (handle : Nat) (name : Bytes) (value : F64)
  | getstrparam (handle : Nat) (name : Bytes)
  | setstrparam (handle : Nat) (name : Bytes) (value : Bytes)
  | readparams (handle : Nat) (filename : Bytes)
  | writeparams (handle : Nat) (filename : Bytes)
  | msg (handle : Nat) (text : Bytes)
  deriving DecidableEq, Repr

/-- Modelled from the spec: the `error` module is not under `src/`.
Section 7 of the spec names exactly two error kinds originating in this
core: ApiError (`Error::FromAPI` in the source, carrying diagnostic text
and the numeric status code) and EncodingError (the conversion of a
`NulError` produced by `CString::new`). -/
inductive Error
  | fromAPI (msg : Bytes) (code : Int)
  | encoding
  deriving DecidableEq, Repr

/-- The native library as a deterministic oracle: status code of each
call, the handle a load/create call writes through its out-pointer, the
per-handle `GRBgeterrormsg` text, and the values the parameter getters
write into the caller's buffer. -/
structure Oracle where
  status : NativeCall → Int
  handleOut : NativeCall → Nat
  errmsg : Nat → Bytes
  intOut : Nat → Bytes → Int
  dblOut : Nat → Bytes → F64
  strOut : Nat → Bytes → Bytes

/-- `struct EnvRep { ptr: *mut ffi::GRBenv }` — the owner record; the
handle is a numeric token, `0` playing `null_mut()`. -/
structure EnvRep where
  ptr : Nat
  deriving DecidableEq, Repr

/-- `Drop for EnvRep`: calls `GRBfreeenv(self.ptr)` and then sets the
pointer to the null sentinel. Returns the record afterwards plus the
native calls performed. -/
def EnvRep.dropRep (r : EnvRep) : EnvRep × List NativeCall :=
  ({ ptr := 0 }, [NativeCall.freeenv r.ptr])

/-- `Env(Rc<EnvRep>)` embedded as the shared owner record together with
its strong reference count: `count` is the number of live shares
(`Env` values and model-held clones) of the one record. -/
structure RcEnv where
  rep : EnvRep
  count : Nat
  deriving DecidableEq, Repr

/-- `#[derive(Clone)]` on `Env`: `Rc::clone` bumps the strong count of
the same owner record; no native call happens, no new handle exists. -/
def Env.clone (s : RcEnv) : RcEnv × List NativeCall :=
  ({ s with count := s.count + 1 }, [])

/-- Dropping one share: `Rc`'s drop decrements the strong count; when the
last share goes away the `EnvRep` destructor runs (`GRBfreeenv` once,
pointer nulled). -/
def rcDrop (s : RcEnv) : RcEnv × List NativeCall :=
  if s.count ≤ 1 then
    let p := s.rep.dropRep
    ({ rep := p.1, count := 0 }, p.2)
  else
    ({ s with count := s.count - 1 }, [])

/-- Dropping `k` shares one after the other, collecting the native calls
performed. -/
def rcDrops : RcEnv → Nat → RcEnv × List NativeCall
  | s, 0 => (s, [])
  | s, k + 1 =>
    let p := rcDrop s
    let q := rcDrops p.1 k
    (q.1, p.2 ++ q.2)

/-- `Env::from_raw`: `Env(Rc::new(EnvRep { ptr }))` — a fresh owner
record with a single share. -/
def Env.from_raw (ptr : Nat) : RcEnv :=
  { rep := { ptr := ptr }, count := 1 }

/-- `fn get_error_msg(env) -> String`: `GRBgeterrormsg` on the given
handle (the call itself is recorded by the callers' traces). -/
def get_error_msg (o : Oracle) (handle : Nat) : Bytes :=
  o.errmsg handle

/-- `ErrorFromAPI::error_from_api`: `Error::FromAPI(get_error_msg(ptr), code)`. -/
def error_from_api (o : Oracle) (handle : Nat) (code : Int) : Error :=
  Error.fromAPI (get_error_msg o handle) code

/-- `Env::check_apicall`, fused with the native call whose status it
checks: perform `c`, and on a non-zero status immediately query
`GRBgeterrormsg` on the same handle and wrap both into `Error::FromAPI`. -/
def check_apicall (o : Oracle) (handle : Nat) (c : NativeCall) :
    Except Error Unit × List NativeCall :=
  let e := o.status c
  if e ≠ 0 then
    (Except.error (error_from_api o handle e), [c, NativeCall.geterrormsg handle])
  else
    (Except.ok (), [c])

/-- `Env::new(logfilename)`: encode the log-file name (fail fast with the
encoding error), call `GRBloadenv`, and on a non-zero status build
`Error::FromAPI` from the staged handle; on success wrap the staged
handle via `Env::from_raw`. -/
def Env.new (o : Oracle) (logfilename : Bytes) :
    Except Error RcEnv × List NativeCall :=
  match cstringNew logfilename with
  | none => (Except.error Error.encoding, [])
  | some lf =>
    let c := NativeCall.loadenv lf
    let env := o.handleOut c
    let e := o.status c
    if e ≠ 0 then
      (Except.error (Error.fromAPI (get_error_msg o env) e),
        [c, NativeCall.geterrormsg env])
    else
      (Except.ok (Env.from_raw env), [c])

/-- `Env::new_client(logfilename, computeserver, port, password,
priority, timeout)`: encode the three strings in source order, each
failing fast with the encoding error before any native call; then call
`GRBloadclientenv` with the same error handling as `Env::new`. -/
def Env.new_client (o : Oracle) (logfilename : Bytes) (computeserver : Bytes)
    (port : Int) (password : Bytes) (priority : Int) (timeout : F64) :
    Except Error RcEnv × List NativeCall :=
  match cstringNew logfilename with
  | none => (Except.error Error.encoding, [])
  | some lf =>
    match cstringNew computeserver with
    | none => (Except.error Error.encoding, [])
    | some cs =>
      match cstringNew password with
      | none => (Except.error Error.encoding, [])
      | some pw =>
        let c := NativeCall.loadclientenv lf cs port pw priority timeout
        let env := o.handleOut c
        let e := o.status c
        if e ≠ 0 then
          (Except.error (Error.fromAPI (get_error_msg o env) e),
            [c, NativeCall.geterrormsg env])
        else
          (Except.ok (Env.from_raw env), [c])

/-- The three closed parameter families of the protocol
(`IntParam` / `DoubleParam` / `StringParam`). -/
inductive PFam
  | intp
  | dblp
  | strp
  deriving DecidableEq, Repr

/-- The public output type of each family (`Param::Out` /
`ParamBase::Out`): `i32`, `f64`, `String`. -/
def POut : PFam → Type
  | PFam.intp => Int
  | PFam.dblp => F64
  | PFam.strp => Bytes

/-- The native getter entry point each family fixes
(`GRBgetintparam` / `GRBgetdblparam` / `GRBgetstrparam`). -/
def famGetCall : PFam → Nat → Bytes → NativeCall
  | PFam.intp, h, n => NativeCall.getintparam h n
  | PFam.dblp, h, n => NativeCall.getdblparam h n
  | PFam.strp, h, n => NativeCall.getstrparam h n

/-- The native setter entry point each family fixes
(`GRBsetintparam` / `GRBsetdblparam` / `GRBsetstrparam`), applied to the
value after the family's to-native conversion (pass-through for the
numeric families, C-string bytes for the string family). -/
def famSetCall : (f : PFam) → Nat → Bytes → POut f → NativeCall
  | PFam.intp, h, n, v => NativeCall.setintparam h n v
  | PFam.dblp, h, n, v => NativeCall.setdblparam h n v
  | PFam.strp, h, n, v => NativeCall.setstrparam h n v

/-- Modelled from the spec: the buffer construction (`util::Init` /
`types::Init` for `Vec<c_char>`) is not under `src/`. Section 9 of the
spec records that the original implementation used a fixed, unchecked
buffer size for string parameters; the exact constant is not in the
sources, 4096 stands for it. -/
def strBufCapacity : Nat := 4096

/-- The freshly initialised string-parameter buffer: `strBufCapacity`
zero bytes. -/
def initStrBuf : Bytes := List.replicate strBufCapacity 0

/-- The C side writing the NUL-terminated string `s` at the start of the
buffer `buf`: the bytes of `s`, the terminator, then whatever of the
buffer lies beyond. When `s.length + 1` exceeds the buffer's length the
result is longer than the buffer — the write ran past its end. -/
def writeCStr (buf : Bytes) (s : Bytes) : Bytes :=
  s ++ [0] ++ buf.drop (s.length + 1)

/-- Does the parameter value `v` fit the fixed buffer (value plus NUL
terminator within capacity)? -/
def strBufSufficient (v : Bytes) : Prop :=
  v.length + 1 ≤ initStrBuf.length

/-- `util::from_c_str`: read a C string from a buffer — the bytes before
the first NUL. -/
def from_c_str (buf : Bytes) : Bytes :=
  buf.takeWhile (fun b => b != 0)

/-- The value a get call returns after the native getter wrote into the
family's buffer: pass-through for the numeric families; for the string
family, the native call writes its C string into the fixed buffer and
`util::Into` decodes it via `from_c_str`. -/
def famGetOut (o : Oracle) : (f : PFam) → Nat → Bytes → POut f
  | PFam.intp, h, n => o.intOut h n
  | PFam.dblp, h, n => o.dblOut h n
  | PFam.strp, h, n => from_c_str (writeCStr initStrBuf (o.strOut h n))

/-- `Env::get` (`src/env/mod.rs`): initialise the family's buffer, run
the family's native getter through `check_apicall`, and on success
convert the buffer contents to the public output type. -/
def Env.get (o : Oracle) (s : RcEnv) (f : PFam) (name : Bytes) :
    Except Error (POut f) × List NativeCall :=
  let p := check_apicall o s.rep.ptr (famGetCall f s.rep.ptr name)
  (p.1.map (fun _ => famGetOut o f s.rep.ptr name), p.2)

/-- `Env::set` (`src/env/mod.rs`): run the family's native setter on the
converted value through `check_apicall`. -/
def Env.set (o : Oracle) (s : RcEnv) (f : PFam) (name : Bytes) (v : POut f) :
    Except Error Unit × List NativeCall :=
  check_apicall o s.rep.ptr (famSetCall f s.rep.ptr name v)

/-- The old `Env` of `src/env.rs`: a bare raw handle, no reference
counting. -/
structure OldEnv where
  env : Nat
  deriving DecidableEq, Repr

/-- `Param::get` default method (`src/env.rs`): initialise the buffer,
call the family's getter, compare the status against zero inline, and on
failure build the error via `EnvAPI::error_from_api` (which queries
`GRBgeterrormsg` on the same handle). -/
def Param.get (o : Oracle) (e : OldEnv) (f : PFam) (name : Bytes) :
    Except Error (POut f) × List NativeCall :=
  let c := famGetCall f e.env name
  let err := o.status c
  if err ≠ 0 then
    (Except.error (Error.fromAPI (o.errmsg e.env) err),
      [c, NativeCall.geterrormsg e.env])
  else
    (Except.ok (famGetOut o f e.env name), [c])

/-- `Param::set` default method (`src/env.rs`): call the family's setter
on the converted value, compare the status against zero inline, same
error construction as `Param::get`. -/
def Param.set (o : Oracle) (e : OldEnv) (f : PFam) (name : Bytes) (v : POut f) :
    Except Error Unit × List NativeCall :=
  let c := famSetCall f e.env name v
  let err := o.status c
  if err ≠ 0 then
    (Except.error (Error.fromAPI (o.errmsg e.env) err),
      [c, NativeCall.geterrormsg e.env])
  else
    (Except.ok (), [c])

/-- The native parameter store: the value each named parameter currently
holds, per family. -/
structure ParamStore where
  ints : Bytes → Int
  dbls : Bytes → F64
  strs : Bytes → Bytes

/-- How a native call changes the parameter store: the three setters
store their value under their name; every other call leaves the store
alone. -/
def applyCall (st : ParamStore) : NativeCall → ParamStore
  | NativeCall.setintparam _ n v => { st with ints := fun m => if m = n then v else st.ints m }
  | NativeCall.setdblparam _ n v => { st with dbls := fun m => if m = n then v else st.dbls m }
  | NativeCall.setstrparam _ n v => { st with strs := fun m => if m = n then v else st.strs m }
  | _ => st

/-- The store-backed native oracle: every call succeeds (status 0) and
each getter returns the value the store currently holds — the last value
stored by the matching setter. -/
def storeOracle (st : ParamStore) : Oracle where
  status := fun _ => 0
  handleOut := fun _ => 0
  errmsg := fun _ => []
  intOut := fun _ n => st.ints n
  dblOut := fun _ n => st.dbls n
  strOut := fun _ n => st.strs n

/-- A string value is encodable as a native C string when it has no
embedded NUL byte. -/
def strValOk (v : Bytes) : Prop := 0 ∉ v

/-- For the string family the public value must be encodable as a native
C string (no embedded NUL); the numeric families have no such side
condition. -/
def ValOk : (f : PFam) → POut f → Prop
  | PFam.intp, _ => True
  | PFam.dblp, _ => True
  | PFam.strp, v => strValOk v

/-- A model value: its own native model handle plus the owner record of
the environment whose share it holds. -/
structure Model where
  envRep : EnvRep
  model_ptr : Nat
  deriving DecidableEq, Repr

/-- Modelled from the spec: the `model` module is not under `src/`.
`Model::new(env, model)` is called as `Model::new(self.clone(), model)`,
and per the spec the produced model is bound to that cloned (shared)
reference of the environment — it holds one share of the owner record
and makes no further native call of its own here. The returned state is
the owner record with the model's share counted in. -/
def Model.new (s : RcEnv) (modelPtr : Nat) : Except Error (Model × RcEnv) :=
  let p := Env.clone s
  Except.ok ({ envRep := p.1.rep, model_ptr := modelPtr }, p.1)

/-- `Env::new_model(modelname)`: encode the name (fail fast), call
`GRBnewmodel` through `check_apicall`, and on success hand the staged
model handle together with `self.clone()` to `Model::new`. -/
def Env.new_model (o : Oracle) (s : RcEnv) (modelname : Bytes) :
    Except Error (Model × RcEnv) × List NativeCall :=
  match cstringNew modelname with
  | none => (Except.error Error.encoding, [])
  | some mn =>
    let c := NativeCall.newmodel s.rep.ptr mn
    let p := check_apicall o s.rep.ptr c
    match p.1 with
    | Except.error e => (Except.error e, p.2)
    | Except.ok _ => (Model.new s (o.handleOut c), p.2)

/-- `Env::read_model(filename)`: encode the path (fail fast), call
`GRBreadmodel` through `check_apicall`, and on success hand the staged
model handle together with `self.clone()` to `Model::new`. -/
def Env.read_model (o : Oracle) (s : RcEnv) (filename : Bytes) :
    Except Error (Model × RcEnv) × List NativeCall :=
  match cstringNew filename with
  | none => (Except.error Error.encoding, [])
  | some fn =>
    let c := NativeCall.readmodel s.rep.ptr fn
    let p := check_apicall o s.rep.ptr c
    match p.1 with
    | Except.error e => (Except.error e, p.2)
    | Except.ok _ => (Model.new s (o.handleOut c), p.2)

/-- `Env::read_params(filename)`: encode the path (fail fast), then
`GRBreadparams` through `check_apicall`. -/
def Env.read_params (o : Oracle) (s : RcEnv) (filename : Bytes) :
    Except Error Unit × List NativeCall :=
  match cstringNew filename with
  | none => (Except.error Error.encoding, [])
  | some fn => check_apicall o s.rep.ptr (NativeCall.readparams s.rep.ptr fn)

/-- `Env::write_params(filename)`: encode the path (fail fast), then
`GRBwriteparams` through `check_apicall`. -/
def Env.write_params (o : Oracle) (s : RcEnv) (filename : Bytes) :
    Except Error Unit × List NativeCall :=
  match cstringNew filename with
  | none => (Except.error Error.encoding, [])
  | some fn => check_apicall o s.rep.ptr (NativeCall.writeparams s.rep.ptr fn)

/-- `Env::message(message)`: `CString::new(message).unwrap()` — a NUL
byte panics (`none`); otherwise the one native `GRBmsg` call is issued.
The operation returns no `Result`: the caller has no failure channel,
panic is the only failure mode. -/
def Env.message (s : RcEnv) (message : Bytes) :
    Option (List NativeCall) :=
  match cstringNew message with
  | none => none
  | some m => some [NativeCall.msg s.rep.ptr m]

/-- The fallible operations a live environment funnels through
`check_apicall`: parameter get/set for the three families, model
creation, model reading, and bulk parameter import/export. -/
inductive EnvOp
  | getInt (name : Bytes)
  | setInt (name : Bytes) (v : Int)
  | getDbl (name : Bytes)
  | setDbl (name : Bytes) (v : F64)
  | getStr (name : Bytes)
  | setStr (name : Bytes) (v : Bytes)
  | newModel (modelname : Bytes)
  | readModel (filename : Bytes)
  | readParams (filename : Bytes)
  | writeParams (filename : Bytes)
  deriving DecidableEq, Repr

/-- Forget an operation's success value, keeping the error (when any)
and the native-call trace. -/
def resultError {α : Type} : Except Error α × List NativeCall →
    Option Error × List NativeCall
  | (Except.error e, t) => (some e, t)
  | (Except.ok _, t) => (none, t)

/-- Run one fallible environment operation, observing only its error
outcome and its native-call trace. -/
def runOpE (o : Oracle) (s : RcEnv) : EnvOp → Option Error × List NativeCall
  | EnvOp.getInt name => resultError (Env.get o s PFam.intp name)
  | EnvOp.setInt name v => resultError (Env.set o s PFam.intp name v)
  | EnvOp.getDbl name => resultError (Env.get o s PFam.dblp name)
  | EnvOp.setDbl name v => resultError (Env.set o s PFam.dblp name v)
  | EnvOp.getStr name => resultError (Env.get o s PFam.strp name)
  | EnvOp.setStr name v => resultError (Env.set o s PFam.strp name v)
  | EnvOp.newModel mn => resultError (Env.new_model o s mn)
  | EnvOp.readModel fn => resultError (Env.read_model o s fn)
  | EnvOp.readParams fn => resultError (Env.read_params o s fn)
  | EnvOp.writeParams fn => resultError (Env.write_params o s fn)

/-- The native call an operation issues on the handle `h` once its
strings encoded. -/
def EnvOp.call (op : EnvOp) (h : Nat) : NativeCall :=
  match op with
  | EnvOp.getInt name => NativeCall.getintparam h name
  | EnvOp.setInt name v => NativeCall.setintparam h name v
  | EnvOp.getDbl name => NativeCall.getdblparam h name
  | EnvOp.setDbl name v => NativeCall.setdblparam h name v
  | EnvOp.getStr name => NativeCall.getstrparam h name
  | EnvOp.setStr name v => NativeCall.setstrparam h name v
  | EnvOp.newModel mn => NativeCall.newmodel h mn
  | EnvOp.readModel fn => NativeCall.readmodel h fn
  | EnvOp.readParams fn => NativeCall.readparams h fn
  | EnvOp.writeParams fn => NativeCall.writeparams h fn

/-- The operation's caller-supplied strings encode without error (no
embedded NUL); parameter names are enumerated constants whose encoding
is infallible, so they carry no condition. -/
def EnvOp.encodable : EnvOp → Prop
  | EnvOp.newModel mn => 0 ∉ mn
  | EnvOp.readModel fn => 0 ∉ fn
  | EnvOp.readParams fn => 0 ∉ fn
  | EnvOp.writeParams fn => 0 ∉ fn
  | _ => True

lemma rcDrop_last (s : RcEnv) (h : s.count = 1) :
    rcDrop s = (({ rep := { ptr := 0 }, count := 0 } : RcEnv),
      [NativeCall.freeenv s.rep.ptr]) := by
  simp [rcDrop, h, EnvRep.dropRep]

lemma rcDrop_shared (s : RcEnv) (h : 1 < s.count) :
    rcDrop s = ({ s with count := s.count - 1 }, []) := by
  have hn : ¬ s.count ≤ 1 := by omega
  simp [rcDrop, hn]

lemma rcDrops_under (k : Nat) : ∀ s : RcEnv, k < s.count →
    rcDrops s k = ({ s with count := s.count - k }, []) := by
  induction k with
  | zero => intro s _; simp [rcDrops]
  | succ m ih =>
    intro s hk
    have h1 : 1 < s.count := by omega
    have hm : m < s.count - 1 := by omega
    have step := rcDrop_shared s h1
    have rest := ih { s with count := s.count - 1 } hm
    have hc : s.count - 1 - m = s.count - (m + 1) := by omega
    simp only [rcDrops, step, rest]
    simp [hc]

lemma rcDrops_exhaust (n : Nat) : ∀ s : RcEnv, s.count = n → 0 < n →
    rcDrops s n = (({ rep := { ptr := 0 }, count := 0 } : RcEnv),
      [NativeCall.freeenv s.rep.ptr]) := by
  induction n with
  | zero => intro s _ h0; omega
  | succ m ih =>
    intro s hc _
    by_cases hm : m = 0
    · subst hm
      have := rcDrop_last s hc
      simp [rcDrops, this]
    · have h1 : 1 < s.count := by omega
      have step := rcDrop_shared s h1
      have rest := ih { s with count := s.count - 1 } (by simp [hc]) (by omega)
      simp only [rcDrops, step, rest]
      simp

/-- C1. Cloning an `Env` bumps the strong count of the same owner record
with no native call (so no second native handle comes into existence);
for `n` shares of one record, dropping any `k < n` of them performs no
native call at all, while dropping all `n` performs exactly one
`GRBfreeenv` on the owned handle — emitted only at the very last drop. -/
theorem c1_clone_and_last_drop_frees_once (s : RcEnv) (hpos : 0 < s.count) :
    ((Env.clone s).1.rep = s.rep ∧ (Env.clone s).1.count = s.count + 1 ∧
      (Env.clone s).2 = []) ∧
    (∀ k, k < s.count → (rcDrops s k).2 = []) ∧
    (rcDrops s s.count).2 = [NativeCall.freeenv s.rep.ptr] ∧
    (rcDrops s s.count).2.count (NativeCall.freeenv s.rep.ptr) = 1 := by
  refine ⟨⟨rfl, rfl, rfl⟩, ?_, ?_, ?_⟩
  · intro k hk
    simp [rcDrops_under k s hk]
  · simp [rcDrops_exhaust s.count s rfl hpos]
  · simp [rcDrops_exhaust s.count s rfl hpos]

/-- Witness for C1 at a record with handle 5 shared by 2 clones. -/
theorem c1_witness :
    0 < (({ rep := { ptr := 5 }, count := 2 } : RcEnv)).count ∧
    (((Env.clone { rep := { ptr := 5 }, count := 2 }).1.rep =
        ({ rep := { ptr := 5 }, count := 2 } : RcEnv).rep ∧
      (Env.clone { rep := { ptr := 5 }, count := 2 }).1.count =
        ({ rep := { ptr := 5 }, count := 2 } : RcEnv).count + 1 ∧
      (Env.clone { rep := { ptr := 5 }, count := 2 }).2 = []) ∧
    (∀ k, k < ({ rep := { ptr := 5 }, count := 2 } : RcEnv).count →
      (rcDrops { rep := { ptr := 5 }, count := 2 } k).2 = []) ∧
    (rcDrops { rep := { ptr := 5 }, count := 2 }
        ({ rep := { ptr := 5 }, count := 2 } : RcEnv).count).2 =
      [NativeCall.freeenv ({ rep := { ptr := 5 }, count := 2 } : RcEnv).rep.ptr] ∧
    (rcDrops { rep := { ptr := 5 }, count := 2 }
        ({ rep := { ptr := 5 }, count := 2 } : RcEnv).count).2.count
      (NativeCall.freeenv ({ rep := { ptr := 5 }, count := 2 } : RcEnv).rep.ptr) = 1) :=
  ⟨by decide, c1_clone_and_last_drop_frees_once { rep := { ptr := 5 }, count := 2 } (by decide)⟩

lemma takeWhile_until_nul (v : Bytes) (rest : Bytes) (hv : 0 ∉ v) :
    (v ++ 0 :: rest).takeWhile (fun b => b != 0) = v := by
  induction v with
  | nil => simp [List.takeWhile]
  | cons a w ih =>
    have ha : a ≠ 0 := fun h => hv (by simp [h])
    have hw : 0 ∉ w := fun h => hv (by simp [h])
    have ha2 : (a != 0) = true := by simpa using ha
    simp [List.takeWhile, ha2, ih hw]

lemma from_c_str_writeCStr (buf : Bytes) (v : Bytes) (hv : 0 ∉ v) :
    from_c_str (writeCStr buf v) = v := by
  simp only [from_c_str, writeCStr, List.append_assoc, List.singleton_append]
  exact takeWhile_until_nul v _ hv

/-- A fixed store for witnesses: every parameter currently zero / empty. -/
def testStore : ParamStore where
  ints := fun _ => 0
  dbls := fun _ => { bits := 0 }
  strs := fun _ => []

/-- A live environment for witnesses: handle 3, one share. -/
def testEnv : RcEnv := { rep := { ptr := 3 }, count := 1 }

/-- C2. Round-trip law under the store-backed native model: for each of
the three parameter families, `set` succeeds and a following `get` of
the same identifier returns exactly the value just stored (for the
string family, provided the value is C-string encodable). -/
theorem c2_set_get_roundtrip (st : ParamStore) (s : RcEnv) (f : PFam)
    (name : Bytes) (v : POut f) (hv : ValOk f v) :
    (Env.set (storeOracle st) s f name v).1 = Except.ok () ∧
    (Env.get
        (storeOracle ((Env.set (storeOracle st) s f name v).2.foldl applyCall st))
        s f name).1 = Except.ok v := by
  cases f with
  | intp =>
    refine ⟨by simp [Env.set, check_apicall, storeOracle], ?_⟩
    simp [Env.set, Env.get, check_apicall, storeOracle, applyCall,
      famSetCall, famGetCall, famGetOut, Except.map]
  | dblp =>
    refine ⟨by simp [Env.set, check_apicall, storeOracle], ?_⟩
    simp [Env.set, Env.get, check_apicall, storeOracle, applyCall,
      famSetCall, famGetCall, famGetOut, Except.map]
  | strp =>
    refine ⟨by simp [Env.set, check_apicall, storeOracle], ?_⟩
    simp [Env.set, Env.get, check_apicall, storeOracle, applyCall,
      famSetCall, famGetCall, famGetOut, Except.map,
      from_c_str_writeCStr initStrBuf v hv]

/-- Witness for C2: storing the string value `[104, 105]` under the name
`[76, 70]` and reading it back. -/
theorem c2_witness :
    ValOk PFam.strp ([104, 105] : Bytes) ∧
    ((Env.set (storeOracle testStore) testEnv PFam.strp [76, 70] ([104, 105] : Bytes)).1 =
        Except.ok () ∧
      (Env.get
          (storeOracle
            ((Env.set (storeOracle testStore) testEnv PFam.strp [76, 70]
                ([104, 105] : Bytes)).2.foldl applyCall testStore))
          testEnv PFam.strp [76, 70]).1 = Except.ok ([104, 105] : Bytes)) :=
  ⟨(by decide : (0 : Nat) ∉ ([104, 105] : Bytes)),
    c2_set_get_roundtrip testStore testEnv PFam.strp [76, 70] [104, 105]
      (by decide : (0 : Nat) ∉ ([104, 105] : Bytes))⟩

lemma runOpE_eq (o : Oracle) (s : RcEnv) (op : EnvOp)
    (henc : EnvOp.encodable op) :
    runOpE o s op =
      if o.status (op.call s.rep.ptr) ≠ 0 then
        (some (Error.fromAPI (o.errmsg s.rep.ptr) (o.status (op.call s.rep.ptr))),
          [op.call s.rep.ptr, NativeCall.geterrormsg s.rep.ptr])
      else
        (none, [op.call s.rep.ptr]) := by
  cases op with
  | getInt name =>
    by_cases h : o.status (NativeCall.getintparam s.rep.ptr name) = 0 <;>
      simp [runOpE, EnvOp.call, Env.get, check_apicall, error_from_api,
        get_error_msg, resultError, famGetCall, Except.map, h]
  | setInt name v =>
    by_cases h : o.status (NativeCall.setintparam s.rep.ptr name v) = 0 <;>
      simp [runOpE, EnvOp.call, Env.set, check_apicall, error_from_api,
        get_error_msg, resultError, famSetCall, h]
  | getDbl name =>
    by_cases h : o.status (NativeCall.getdblparam s.rep.ptr name) = 0 <;>
      simp [runOpE, EnvOp.call, Env.get, check_apicall, error_from_api,
        get_error_msg, resultError, famGetCall, Except.map, h]
  | setDbl name v =>
    by_cases h : o.status (NativeCall.setdblparam s.rep.ptr name v) = 0 <;>
      simp [runOpE, EnvOp.call, Env.set, check_apicall, error_from_api,
        get_error_msg, resultError, famSetCall, h]
  | getStr name =>
    by_cases h : o.status (NativeCall.getstrparam s.rep.ptr name) = 0 <;>
      simp [runOpE, EnvOp.call, Env.get, check_apicall, error_from_api,
        get_error_msg, resultError, famGetCall, Except.map, h]
  | setStr name v =>
    by_cases h : o.status (NativeCall.setstrparam s.rep.ptr name v) = 0 <;>
      simp [runOpE, EnvOp.call, Env.set, check_apicall, error_from_api,
        get_error_msg, resultError, famSetCall, h]
  | newModel mn =>
    simp only [EnvOp.encodable] at henc
    by_cases h : o.status (NativeCall.newmodel s.rep.ptr mn) = 0 <;>
      simp [runOpE, EnvOp.call, Env.new_model, cstringNew, henc, Model.new,
        check_apicall, error_from_api, get_error_msg, resultError, h]
  | readModel fn =>
    simp only [EnvOp.encodable] at henc
    by_cases h : o.status (NativeCall.readmodel s.rep.ptr fn) = 0 <;>
      simp [runOpE, EnvOp.call, Env.read_model, cstringNew, henc, Model.new,
        check_apicall, error_from_api, get_error_msg, resultError, h]
  | readParams fn =>
    simp only [EnvOp.encodable] at henc
    by_cases h : o.status (NativeCall.readparams s.rep.ptr fn) = 0 <;>
      simp [runOpE, EnvOp.call, Env.read_params, cstringNew, henc,
        check_apicall, error_from_api, get_error_msg, resultError, h]
  | writeParams fn =>
    simp only [EnvOp.encodable] at henc
    by_cases h : o.status (NativeCall.writeparams s.rep.ptr fn) = 0 <;>
      simp [runOpE, EnvOp.call, Env.write_params, cstringNew, henc,
        check_apicall, error_from_api, get_error_msg, resultError, h]

/-- C3. For every fallible call funnelled through the environment
(parameter get/set of each family, model creation/reading, bulk
parameter import/export), once its strings are encodable: the operation
yields an `Error.fromAPI` exactly when the native status is non-zero;
that error carries the exact status code together with the diagnostic
text of the same handle; and on failure the native-call trace is exactly
the failing call followed immediately by `GRBgeterrormsg` on that
handle — no other native call in between or after. -/
theorem c3_api_error_iff_nonzero_status (o : Oracle) (s : RcEnv) (op : EnvOp)
    (henc : EnvOp.encodable op) :
    ((∃ msg code, (runOpE o s op).1 = some (Error.fromAPI msg code)) ↔
        o.status (op.call s.rep.ptr) ≠ 0) ∧
    (o.status (op.call s.rep.ptr) ≠ 0 →
      (runOpE o s op).1 =
          some (Error.fromAPI (o.errmsg s.rep.ptr) (o.status (op.call s.rep.ptr))) ∧
      (runOpE o s op).2 =
          [op.call s.rep.ptr, NativeCall.geterrormsg s.rep.ptr]) ∧
    (o.status (op.call s.rep.ptr) = 0 →
      (runOpE o s op).1 = none ∧ (runOpE o s op).2 = [op.call s.rep.ptr]) := by
  have hr := runOpE_eq o s op henc
  by_cases h : o.status (op.call s.rep.ptr) = 0 <;> rw [hr] <;> simp [h]

/-- An oracle on which every native call fails with status 10005 and
every handle's diagnostic text reads `Out`. -/
def failOracle : Oracle where
  status := fun _ => 10005
  handleOut := fun _ => 7
  errmsg := fun _ => [79, 117, 116]
  intOut := fun _ _ => 0
  dblOut := fun _ _ => { bits := 0 }
  strOut := fun _ _ => []

/-- Witness for C3: `read_params` on a failing oracle. -/
theorem c3_witness :
    EnvOp.encodable (EnvOp.readParams [112]) ∧
    (((∃ msg code, (runOpE failOracle testEnv (EnvOp.readParams [112])).1 =
          some (Error.fromAPI msg code)) ↔
        failOracle.status ((EnvOp.readParams [112]).call testEnv.rep.ptr) ≠ 0) ∧
    (failOracle.status ((EnvOp.readParams [112]).call testEnv.rep.ptr) ≠ 0 →
      (runOpE failOracle testEnv (EnvOp.readParams [112])).1 =
          some (Error.fromAPI (failOracle.errmsg testEnv.rep.ptr)
            (failOracle.status ((EnvOp.readParams [112]).call testEnv.rep.ptr))) ∧
      (runOpE failOracle testEnv (EnvOp.readParams [112])).2 =
          [(EnvOp.readParams [112]).call testEnv.rep.ptr,
            NativeCall.geterrormsg testEnv.rep.ptr]) ∧
    (failOracle.status ((EnvOp.readParams [112]).call testEnv.rep.ptr) = 0 →
      (runOpE failOracle testEnv (EnvOp.readParams [112])).1 = none ∧
      (runOpE failOracle testEnv (EnvOp.readParams [112])).2 =
          [(EnvOp.readParams [112]).call testEnv.rep.ptr])) :=
  ⟨(by decide : (0 : Nat) ∉ ([112] : Bytes)),
    c3_api_error_iff_nonzero_status failOracle testEnv (EnvOp.readParams [112])
      (by decide : (0 : Nat) ∉ ([112] : Bytes))⟩

/-- C4. `new_client`: when the log-file name, the server address, or the
password holds an embedded NUL byte, the call returns the encoding error
with an empty native-call trace — no native call occurs; when all three
are NUL-free, the first native call performed is `GRBloadclientenv` with
exactly the encoded arguments — the load is attempted. -/
theorem c4_new_client_encoding_fail_fast (o : Oracle) (lf cs pw : Bytes)
    (port prio : Int) (tout : F64) :
    if 0 ∈ lf ∨ 0 ∈ cs ∨ 0 ∈ pw then
      (Env.new_client o lf cs port pw prio tout).1 = Except.error Error.encoding ∧
      (Env.new_client o lf cs port pw prio tout).2 = []
    else
      (Env.new_client o lf cs port pw prio tout).2.head? =
        some (NativeCall.loadclientenv lf cs port pw prio tout) := by
  by_cases h1 : 0 ∈ lf
  · simp [h1, Env.new_client, cstringNew]
  · by_cases h2 : 0 ∈ cs
    · simp [h1, h2, Env.new_client, cstringNew]
    · by_cases h3 : 0 ∈ pw
      · simp [h1, h2, h3, Env.new_client, cstringNew]
      · by_cases hs : o.status (NativeCall.loadclientenv lf cs port pw prio tout) = 0 <;>
          simp [h1, h2, h3, hs, Env.new_client, cstringNew]

/-- C10. When the native load call of `new` or `new_client` fails with a
non-zero status, the constructor returns an error having performed
exactly two native calls — the load call and the immediate
`GRBgeterrormsg` on the staged handle — and `GRBfreeenv` is never
invoked on that handle (the staged handle is never wrapped in an owner
record on the error path). -/
theorem c10_failed_construction_never_frees (o : Oracle) (lf cs pw : Bytes)
    (port prio : Int) (tout : F64)
    (hlf : 0 ∉ lf) (hcs : 0 ∉ cs) (hpw : 0 ∉ pw)
    (h1 : o.status (NativeCall.loadenv lf) ≠ 0)
    (h2 : o.status (NativeCall.loadclientenv lf cs port pw prio tout) ≠ 0) :
    ((∃ e, (Env.new o lf).1 = Except.error e) ∧
      (Env.new o lf).2 = [NativeCall.loadenv lf,
        NativeCall.geterrormsg (o.handleOut (NativeCall.loadenv lf))] ∧
      ∀ h, NativeCall.freeenv h ∉ (Env.new o lf).2) ∧
    ((∃ e, (Env.new_client o lf cs port pw prio tout).1 = Except.error e) ∧
      (Env.new_client o lf cs port pw prio tout).2 =
        [NativeCall.loadclientenv lf cs port pw prio tout,
          NativeCall.geterrormsg
            (o.handleOut (NativeCall.loadclientenv lf cs port pw prio tout))] ∧
      ∀ h, NativeCall.freeenv h ∉ (Env.new_client o lf cs port pw prio tout).2) := by
  constructor
  · refine ⟨?_, ?_, ?_⟩ <;>
      simp [Env.new, cstringNew, hlf, h1, get_error_msg]
  · refine ⟨?_, ?_, ?_⟩ <;>
      simp [Env.new_client, cstringNew, hlf, hcs, hpw, h2, get_error_msg]

/-- Witness for C10: both constructors on the all-failing oracle. -/
theorem c10_witness :
    (0 : Nat) ∉ ([108] : Bytes) ∧ (0 : Nat) ∉ ([99] : Bytes) ∧
    (0 : Nat) ∉ ([] : Bytes) ∧
    failOracle.status (NativeCall.loadenv [108]) ≠ 0 ∧
    failOracle.status
      (NativeCall.loadclientenv [108] [99] 1 [] 0 { bits := 0 }) ≠ 0 ∧
    (((∃ e, (Env.new failOracle [108]).1 = Except.error e) ∧
      (Env.new failOracle [108]).2 = [NativeCall.loadenv [108],
        NativeCall.geterrormsg (failOracle.handleOut (NativeCall.loadenv [108]))] ∧
      ∀ h, NativeCall.freeenv h ∉ (Env.new failOracle [108]).2) ∧
    ((∃ e, (Env.new_client failOracle [108] [99] 1 [] 0 { bits := 0 }).1 =
        Except.error e) ∧
      (Env.new_client failOracle [108] [99] 1 [] 0 { bits := 0 }).2 =
        [NativeCall.loadclientenv [108] [99] 1 [] 0 { bits := 0 },
          NativeCall.geterrormsg (failOracle.handleOut
            (NativeCall.loadclientenv [108] [99] 1 [] 0 { bits := 0 }))] ∧
      ∀ h, NativeCall.freeenv h ∉
        (Env.new_client failOracle [108] [99] 1 [] 0 { bits := 0 }).2)) :=
  ⟨by decide, by decide, by decide, by decide, by decide,
    c10_failed_construction_never_frees failOracle [108] [99] [] 1 0 { bits := 0 }
      (by decide) (by decide) (by decide) (by decide) (by decide)⟩

/-- C5, refuted at a concrete input: the string-parameter get path hands
the native getter a fixed-capacity buffer with no size query, and a
parameter value of `strBufCapacity` bytes does not fit it — the native
write runs past the end of the buffer (the written memory is longer than
the buffer), so the capacity is not sufficient for every value. -/
theorem c5_fixed_buffer_insufficient :
    ¬ strBufSufficient (List.replicate strBufCapacity 1) ∧
    initStrBuf.length <
      (writeCStr initStrBuf (List.replicate strBufCapacity 1)).length := by
  constructor
  · simp only [strBufSufficient, initStrBuf, List.length_replicate]
    omega
  · simp only [writeCStr, initStrBuf, List.append_assoc, List.length_append,
      List.length_replicate, List.length_drop, List.singleton_append,
      List.length_cons]
    omega

/-- C6. A successful `new_model` (and `read_model`) yields a model
holding its own share of the same owner record — the count rises by
one — and dropping the creating `Env`'s share afterwards performs no
native call (in particular no `GRBfreeenv`) and leaves the record live
with the model's share still counted, the handle untouched. -/
theorem c6_model_keeps_owner_record_alive (o : Oracle) (s : RcEnv) (mn fp : Bytes)
    (hpos : 0 < s.count) (henc : 0 ∉ mn) (henc2 : 0 ∉ fp)
    (hok : o.status (NativeCall.newmodel s.rep.ptr mn) = 0)
    (hok2 : o.status (NativeCall.readmodel s.rep.ptr fp) = 0) :
    (∃ m s1, (Env.new_model o s mn).1 = Except.ok (m, s1) ∧
      m.envRep = s.rep ∧ s1.rep = s.rep ∧ s1.count = s.count + 1 ∧
      (rcDrop s1).2 = [] ∧ (rcDrop s1).1.count = s.count ∧
      0 < (rcDrop s1).1.count ∧ (rcDrop s1).1.rep = s.rep) ∧
    (∃ m s1, (Env.read_model o s fp).1 = Except.ok (m, s1) ∧
      m.envRep = s.rep ∧ s1.rep = s.rep ∧ s1.count = s.count + 1 ∧
      (rcDrop s1).2 = [] ∧ (rcDrop s1).1.count = s.count ∧
      0 < (rcDrop s1).1.count ∧ (rcDrop s1).1.rep = s.rep) := by
  have hgt : 1 < (RcEnv.mk s.rep (s.count + 1)).count := by
    show 1 < s.count + 1
    omega
  have hdrop := rcDrop_shared (RcEnv.mk s.rep (s.count + 1)) hgt
  constructor
  · refine ⟨Model.mk s.rep (o.handleOut (NativeCall.newmodel s.rep.ptr mn)),
      RcEnv.mk s.rep (s.count + 1), ?_, rfl, rfl, rfl, ?_, ?_, ?_, ?_⟩
    · simp [Env.new_model, cstringNew, henc, check_apicall, hok, Model.new,
        Env.clone]
    · rw [hdrop]
    · rw [hdrop]
      show s.count + 1 - 1 = s.count
      omega
    · rw [hdrop]
      show 0 < s.count + 1 - 1
      omega
    · rw [hdrop]
  · refine ⟨Model.mk s.rep (o.handleOut (NativeCall.readmodel s.rep.ptr fp)),
      RcEnv.mk s.rep (s.count + 1), ?_, rfl, rfl, rfl, ?_, ?_, ?_, ?_⟩
    · simp [Env.read_model, cstringNew, henc2, check_apicall, hok2, Model.new,
        Env.clone]
    · rw [hdrop]
    · rw [hdrop]
      show s.count + 1 - 1 = s.count
      omega
    · rw [hdrop]
      show 0 < s.count + 1 - 1
      omega
    · rw [hdrop]

/-- Witness for C6 on the always-succeeding store oracle. -/
theorem c6_witness :
    0 < testEnv.count ∧ (0 : Nat) ∉ ([109] : Bytes) ∧
    (0 : Nat) ∉ ([102] : Bytes) ∧
    (storeOracle testStore).status
      (NativeCall.newmodel testEnv.rep.ptr [109]) = 0 ∧
    (storeOracle testStore).status
      (NativeCall.readmodel testEnv.rep.ptr [102]) = 0 ∧
    ((∃ m s1, (Env.new_model (storeOracle testStore) testEnv [109]).1 =
        Except.ok (m, s1) ∧
      m.envRep = testEnv.rep ∧ s1.rep = testEnv.rep ∧
      s1.count = testEnv.count + 1 ∧
      (rcDrop s1).2 = [] ∧ (rcDrop s1).1.count = testEnv.count ∧
      0 < (rcDrop s1).1.count ∧ (rcDrop s1).1.rep = testEnv.rep) ∧
    (∃ m s1, (Env.read_model (storeOracle testStore) testEnv [102]).1 =
        Except.ok (m, s1) ∧
      m.envRep = testEnv.rep ∧ s1.rep = testEnv.rep ∧
      s1.count = testEnv.count + 1 ∧
      (rcDrop s1).2 = [] ∧ (rcDrop s1).1.count = testEnv.count ∧
      0 < (rcDrop s1).1.count ∧ (rcDrop s1).1.rep = testEnv.rep)) :=
  ⟨by decide, by decide, by decide, rfl, rfl,
    c6_model_keeps_owner_record_alive (storeOracle testStore) testEnv [109] [102]
      (by decide) (by decide) (by decide) rfl rfl⟩

lemma except_not_both {α : Type} (r : Except Error α) :
    ¬ ((∃ e, r = Except.error e) ∧ (∃ v, r = Except.ok v)) := by
  rintro ⟨⟨e, he⟩, ⟨v, hv⟩⟩
  rw [he] at hv
  exact Except.noConfusion hv

/-- C7. Every constructor (`new`, `new_client`, `new_model`,
`read_model`) returns either an error or a fully initialised value,
never both: a returned environment is a fresh owner record with exactly
one share; a returned model carries its own share of the creating
environment's record (its count grew by one). On the error branch no
environment or model value exists for the caller. -/
theorem c7_construction_all_or_nothing (o : Oracle) (lf cs pw mn fp : Bytes)
    (port prio : Int) (tout : F64) (s : RcEnv) :
    (((∃ e, (Env.new o lf).1 = Except.error e) ∨
        (∃ env, (Env.new o lf).1 = Except.ok env ∧ env.count = 1)) ∧
      ¬ ((∃ e, (Env.new o lf).1 = Except.error e) ∧
        (∃ env, (Env.new o lf).1 = Except.ok env))) ∧
    (((∃ e, (Env.new_client o lf cs port pw prio tout).1 = Except.error e) ∨
        (∃ env, (Env.new_client o lf cs port pw prio tout).1 = Except.ok env ∧
          env.count = 1)) ∧
      ¬ ((∃ e, (Env.new_client o lf cs port pw prio tout).1 = Except.error e) ∧
        (∃ env, (Env.new_client o lf cs port pw prio tout).1 = Except.ok env))) ∧
    (((∃ e, (Env.new_model o s mn).1 = Except.error e) ∨
        (∃ m s1, (Env.new_model o s mn).1 = Except.ok (m, s1) ∧
          m.envRep = s.rep ∧ s1.count = s.count + 1)) ∧
      ¬ ((∃ e, (Env.new_model o s mn).1 = Except.error e) ∧
        (∃ v, (Env.new_model o s mn).1 = Except.ok v))) ∧
    (((∃ e, (Env.read_model o s fp).1 = Except.error e) ∨
        (∃ m s1, (Env.read_model o s fp).1 = Except.ok (m, s1) ∧
          m.envRep = s.rep ∧ s1.count = s.count + 1)) ∧
      ¬ ((∃ e, (Env.read_model o s fp).1 = Except.error e) ∧
        (∃ v, (Env.read_model o s fp).1 = Except.ok v))) := by
  refine ⟨⟨?_, except_not_both _⟩, ⟨?_, except_not_both _⟩,
    ⟨?_, except_not_both _⟩, ⟨?_, except_not_both _⟩⟩
  · by_cases h : 0 ∈ lf
    · exact Or.inl ⟨Error.encoding, by simp [Env.new, cstringNew, h]⟩
    · by_cases hs : o.status (NativeCall.loadenv lf) = 0
      · exact Or.inr ⟨Env.from_raw (o.handleOut (NativeCall.loadenv lf)),
          by simp [Env.new, cstringNew, h, hs], rfl⟩
      · exact Or.inl ⟨Error.fromAPI
            (get_error_msg o (o.handleOut (NativeCall.loadenv lf)))
            (o.status (NativeCall.loadenv lf)),
          by simp [Env.new, cstringNew, h, hs]⟩
  · by_cases h1 : 0 ∈ lf
    · exact Or.inl ⟨Error.encoding, by simp [Env.new_client, cstringNew, h1]⟩
    · by_cases h2 : 0 ∈ cs
      · exact Or.inl ⟨Error.encoding, by simp [Env.new_client, cstringNew, h1, h2]⟩
      · by_cases h3 : 0 ∈ pw
        · exact Or.inl ⟨Error.encoding,
            by simp [Env.new_client, cstringNew, h1, h2, h3]⟩
        · by_cases hs : o.status
              (NativeCall.loadclientenv lf cs port pw prio tout) = 0
          · exact Or.inr ⟨Env.from_raw
                (o.handleOut (NativeCall.loadclientenv lf cs port pw prio tout)),
              by simp [Env.new_client, cstringNew, h1, h2, h3, hs], rfl⟩
          · exact Or.inl ⟨Error.fromAPI
                (get_error_msg o (o.handleOut
                  (NativeCall.loadclientenv lf cs port pw prio tout)))
                (o.status (NativeCall.loadclientenv lf cs port pw prio tout)),
              by simp [Env.new_client, cstringNew, h1, h2, h3, hs]⟩
  · by_cases h : 0 ∈ mn
    · exact Or.inl ⟨Error.encoding, by simp [Env.new_model, cstringNew, h]⟩
    · by_cases hs : o.status (NativeCall.newmodel s.rep.ptr mn) = 0
      · exact Or.inr ⟨Model.mk s.rep
            (o.handleOut (NativeCall.newmodel s.rep.ptr mn)),
          RcEnv.mk s.rep (s.count + 1),
          by simp [Env.new_model, cstringNew, h, check_apicall, hs, Model.new,
            Env.clone],
          rfl, rfl⟩
      · exact Or.inl ⟨error_from_api o s.rep.ptr
            (o.status (NativeCall.newmodel s.rep.ptr mn)),
          by simp [Env.new_model, cstringNew, h, check_apicall, hs]⟩
  · by_cases h : 0 ∈ fp
    · exact Or.inl ⟨Error.encoding, by simp [Env.read_model, cstringNew, h]⟩
    · by_cases hs : o.status (NativeCall.readmodel s.rep.ptr fp) = 0
      · exact Or.inr ⟨Model.mk s.rep
            (o.handleOut (NativeCall.readmodel s.rep.ptr fp)),
          RcEnv.mk s.rep (s.count + 1),
          by simp [Env.read_model, cstringNew, h, check_apicall, hs, Model.new,
            Env.clone],
          rfl, rfl⟩
      · exact Or.inl ⟨error_from_api o s.rep.ptr
            (o.status (NativeCall.readmodel s.rep.ptr fp)),
          by simp [Env.read_model, cstringNew, h, check_apicall, hs]⟩

/-- C8. `message` has no failure channel: a text with an embedded NUL
byte panics (no `Result` reaches the caller — the model's `none`), and
every NUL-free text issues exactly one native call, the single `GRBmsg`
on the environment's handle. -/
theorem c8_message_panics_on_nul (s : RcEnv) (text : Bytes) :
    (Env.message s text = none ↔ 0 ∈ text) ∧
    (0 ∉ text → Env.message s text = some [NativeCall.msg s.rep.ptr text]) ∧
    (∀ l, Env.message s text = some l → l.length = 1) := by
  by_cases h : 0 ∈ text
  · refine ⟨by simp [Env.message, cstringNew, h], fun hc => absurd h hc, ?_⟩
    intro l hl
    simp [Env.message, cstringNew, h] at hl
  · refine ⟨by simp [Env.message, cstringNew, h], fun _ => by
      simp [Env.message, cstringNew, h], ?_⟩
    intro l hl
    simp only [Env.message, cstringNew, if_neg h, Option.some.injEq] at hl
    rw [← hl]
    rfl

/-- Witness for C8 at the one-byte text `[104]`. -/
theorem c8_witness :
    (Env.message testEnv [104] = none ↔ (0 : Nat) ∈ ([104] : Bytes)) ∧
    ((0 : Nat) ∉ ([104] : Bytes) →
      Env.message testEnv [104] = some [NativeCall.msg testEnv.rep.ptr [104]]) ∧
    (∀ l, Env.message testEnv [104] = some l → l.length = 1) :=
  c8_message_panics_on_nul testEnv [104]

/-- C9. The two historical versions of the parameter-access subsystem
agree: for every oracle, handle, family, identifier and value, the
`Param::get`/`Param::set` of `src/env.rs` and the `Env::get`/`Env::set`
of `src/env/mod.rs` return the same result (same success value, or the
same error code and message) and perform the same native calls. -/
theorem c9_two_versions_agree (o : Oracle) (h n : Nat) (f : PFam)
    (name : Bytes) (v : POut f) :
    Param.get o (OldEnv.mk h) f name =
      Env.get o (RcEnv.mk (EnvRep.mk h) n) f name ∧
    Param.set o (OldEnv.mk h) f name v =
      Env.set o (RcEnv.mk (EnvRep.mk h) n) f name v := by
  constructor
  · by_cases hs : o.status (famGetCall f h name) = 0 <;>
      simp [Param.get, Env.get, check_apicall, error_from_api, get_error_msg,
        Except.map, hs]
  · by_cases hs : o.status (famSetCall f h name v) = 0 <;>
      simp [Param.set, Env.set, check_apicall, error_from_api, get_error_msg, hs]

/-- Witness for C4 at NUL-free inputs: the load-client call is attempted. -/
theorem c4_witness :
    if (0 : Nat) ∈ ([108] : Bytes) ∨ (0 : Nat) ∈ ([99] : Bytes) ∨
        (0 : Nat) ∈ ([112] : Bytes) then
      (Env.new_client failOracle [108] [99] 1 [112] 0 { bits := 0 }).1 =
          Except.error Error.encoding ∧
      (Env.new_client failOracle [108] [99] 1 [112] 0 { bits := 0 }).2 = []
    else
      (Env.new_client failOracle [108] [99] 1 [112] 0 { bits := 0 }).2.head? =
        some (NativeCall.loadclientenv [108] [99] 1 [112] 0 { bits := 0 }) :=
  c4_new_client_encoding_fail_fast failOracle [108] [99] [112] 1 0 { bits := 0 }

/-- Witness for C7 on the all-failing oracle. -/
theorem c7_witness :
    (((∃ e, (Env.new failOracle [108]).1 = Except.error e) ∨
        (∃ env, (Env.new failOracle [108]).1 = Except.ok env ∧ env.count = 1)) ∧
      ¬ ((∃ e, (Env.new failOracle [108]).1 = Except.error e) ∧
        (∃ env, (Env.new failOracle [108]).1 = Except.ok env))) ∧
    (((∃ e, (Env.new_client failOracle [108] [99] 1 [112] 0 { bits := 0 }).1 =
          Except.error e) ∨
        (∃ env, (Env.new_client failOracle [108] [99] 1 [112] 0 { bits := 0 }).1 =
          Except.ok env ∧ env.count = 1)) ∧
      ¬ ((∃ e, (Env.new_client failOracle [108] [99] 1 [112] 0 { bits := 0 }).1 =
          Except.error e) ∧
        (∃ env, (Env.new_client failOracle [108] [99] 1 [112] 0 { bits := 0 }).1 =
          Except.ok env))) ∧
    (((∃ e, (Env.new_model failOracle testEnv [109]).1 = Except.error e) ∨
        (∃ m s1, (Env.new_model failOracle testEnv [109]).1 = Except.ok (m, s1) ∧
          m.envRep = testEnv.rep ∧ s1.count = testEnv.count + 1)) ∧
      ¬ ((∃ e, (Env.new_model failOracle testEnv [109]).1 = Except.error e) ∧
        (∃ v, (Env.new_model failOracle testEnv [109]).1 = Except.ok v))) ∧
    (((∃ e, (Env.read_model failOracle testEnv [102]).1 = Except.error e) ∨
        (∃ m s1, (Env.read_model failOracle testEnv [102]).1 = Except.ok (m, s1) ∧
          m.envRep = testEnv.rep ∧ s1.count = testEnv.count + 1)) ∧
      ¬ ((∃ e, (Env.read_model failOracle testEnv [102]).1 = Except.error e) ∧
        (∃ v, (Env.read_model failOracle testEnv [102]).1 = Except.ok v))) :=
  c7_construction_all_or_nothing failOracle [108] [99] [112] [109] [102] 1 0
    { bits := 0 } testEnv

/-- Witness for C9 at the integer family on the all-failing oracle. -/
theorem c9_witness :
    Param.get failOracle (OldEnv.mk 3) PFam.intp [73] =
      Env.get failOracle (RcEnv.mk (EnvRep.mk 3) 1) PFam.intp [73] ∧
    Param.set failOracle (OldEnv.mk 3) PFam.intp [73] (1 : Int) =
      Env.set failOracle (RcEnv.mk (EnvRep.mk 3) 1) PFam.intp [73] (1 : Int) :=
  c9_two_versions_agree failOracle 3 1 PFam.intp [73] (1 : Int)

end Gurobi
